import Mathlib

/-!
Verification of the asynchronous process supervisor of `src/main.py`
(`CommandThread` and the command-submission entry point of
`ScrcpyController`).  The supervisor is embedded shallowly: the behaviour
of the external child process is an explicit environment value
(`ChildBehavior`), and `CommandThread.run` is the pure function from that
environment to the sequence of callback invocations (`Event`s) the thread
emits, translated line by line from the Python source.
-/

namespace Scrcpy

/-- Events observable by the caller of a supervisor: an invocation of the
output callback (`output_signal.emit line`) or of the completion callback
(`finished_signal.emit code`). -/
inductive Event where
  | output (line : String)
  | finished (code : Int)
deriving DecidableEq, Repr

/-- The environment describing what the spawned child process does, as
observed by `CommandThread.run` through its pipes:
`spawnFails` models `subprocess.Popen` raising (executable missing,
permission denied, shell error) with message `spawnMsg`; `stdoutReads` is
the sequence of strings returned by `self.process.stdout.readline()`
before the loop exit condition holds (an element may be the empty string
when `readline` returns nothing while the process is still running);
`stderrRest` is the full text returned by `self.process.stderr.read()`;
`returnCode` is the exit code returned by `self.process.wait()`. -/
structure ChildBehavior where
  spawnFails : Bool
  spawnMsg : String
  stdoutReads : List String
  stderrRest : String
  returnCode : Int
deriving DecidableEq, Repr

/-- Python's `str.strip()`: remove leading and trailing whitespace.
Defined over the character list so that it evaluates by reduction. -/
def strip (s : String) : String :=
  ⟨((s.data.dropWhile Char.isWhitespace).reverse.dropWhile Char.isWhitespace).reverse⟩

/-- Whether `s` starts with the literal `p`, over character lists. -/
def beginsWith (p s : String) : Bool :=
  List.isPrefixOf p.data s.data

/-- Embeds line 26 of `src/main.py`: `re.match(r'^(adb|scrcpy)', command)`
holds exactly when the command string starts with `adb` or `scrcpy`. -/
def matchesTool (command : String) : Bool :=
  beginsWith "adb" command || beginsWith "scrcpy" command

/-- Embeds the command-resolution prelude of `CommandThread.run`
(lines 25-32 of `src/main.py`): if the command starts with `adb` or
`scrcpy`, the prefix is prepended, and when `os.path.isdir("scrcpy")`
holds a `cd scrcpy && ` is prepended as well; otherwise the command is
used verbatim. -/
def resolvedCommand (cmd_pre command : String) (scrcpyIsDir : Bool) : String :=
  if matchesTool command then
    let full_command := cmd_pre ++ command
    if scrcpyIsDir then "cd scrcpy && " ++ full_command else full_command
  else
    command

/-- Embeds the stdout read loop of `CommandThread.run` (lines 40-45 of
`src/main.py`): each `readline` result is emitted through
`output_signal` when non-empty (`if line:`); empty reads while the
process is alive emit nothing; the loop exits when `readline` returns
an empty string and `poll()` is no longer `None`. -/
def readLoop : List String → List Event
  | [] => []
  | l :: ls => if l = "" then readLoop ls else Event.output l :: readLoop ls

/-- Embeds lines 48-50 of `src/main.py`: the buffered stderr is read in
full once the stdout loop has ended and, when non-empty (`if stderr:`),
emitted as one single output event prefixed with `ERROR: `. -/
def stderrEvents (stderrRest : String) : List Event :=
  if stderrRest = "" then [] else [Event.output ("ERROR: " ++ stderrRest ++ "\n")]

/-- The synthetic completion-report line of line 53 of `src/main.py`. -/
def completedLine (rc : Int) : String :=
  "Command completed with return code: " ++ toString rc ++ "\n"

/-- Embeds `CommandThread.run` (lines 23-58 of `src/main.py`) as the list
of callback invocations it performs, in order.  The `try` body resolves
the command, spawns the process, streams stdout, flushes stderr, emits
the completion-report line and signals the return code; the `except`
branch emits the exception text and signals `-1`.  Totality of this
function reflects that `run` lets no exception escape. -/
def run (cmd_pre command : String) (child : ChildBehavior) : List Event :=
  if child.spawnFails then
    [Event.output ("Exception: " ++ child.spawnMsg ++ "\n"), Event.finished (-1)]
  else
    readLoop child.stdoutReads
      ++ stderrEvents child.stderrRest
      ++ [Event.output (completedLine child.returnCode),
          Event.finished child.returnCode]

/-- Embeds `ScrcpyController.submit_command` (lines 447-461 of
`src/main.py`): the input is stripped; a blank result makes the method
return with no `CommandThread` created (`none`), otherwise a thread is
started on the stripped command (`some`). -/
def submit_command (input : String) : Option String :=
  let command := strip input
  if command = "" then none else some command

/-- The OS-level action `terminate_process` requests: on Windows a
`taskkill /F /T /PID <pid>` killing the whole tree, otherwise
`Popen.terminate()` followed by `Popen.wait` with the given timeout in
seconds. -/
inductive TermAction where
  | killTree (pid : Nat)
  | termThenWait (pid : Nat) (graceSecs : Nat)
deriving DecidableEq, Repr

/-- The supervisor-owned state `terminate_process` consults: the
`self.process` attribute, `none` before `run` has spawned anything and
`some pid` afterwards (the attribute is never reset). -/
structure SupState where
  process : Option Nat
deriving DecidableEq, Repr

/-- Embeds `CommandThread.terminate_process` (lines 60-69 of
`src/main.py`).  Result: the supervisor state after the call, the OS
action attempted (if any), the callback invocations made, and whether an
exception escapes to the caller.  `osCallFails` models the OS call
inside the `try` raising; the bare `except: pass` swallows it, so the
result does not depend on it and the escape flag is always `false`.
The method mutates no attribute and emits no signal. -/
def terminateStep (isWindows osCallFails : Bool) (s : SupState) :
    SupState × Option TermAction × List Event × Bool :=
  match s.process with
  | none => (s, none, [], false)
  | some pid =>
      let act := if isWindows then TermAction.killTree pid
                 else TermAction.termThenWait pid 5
      (s, some act, [], false)

/-- The lines handed to the output callback, in order. -/
def outputLines (t : List Event) : List String :=
  t.filterMap fun e => match e with
    | Event.output s => some s
    | Event.finished _ => none

/-- The codes handed to the completion callback, in order. -/
def finishedCodes (t : List Event) : List Int :=
  t.filterMap fun e => match e with
    | Event.finished k => some k
    | Event.output _ => none

theorem outputLines_append (a b : List Event) :
    outputLines (a ++ b) = outputLines a ++ outputLines b :=
  List.filterMap_append a b _

theorem finishedCodes_append (a b : List Event) :
    finishedCodes (a ++ b) = finishedCodes a ++ finishedCodes b :=
  List.filterMap_append a b _

/-- Every event produced by the stdout read loop is an output event. -/
theorem readLoop_mem {e : Event} : ∀ {ls : List String},
    e ∈ readLoop ls → ∃ s, e = Event.output s := by
  intro ls h
  induction ls with
  | nil => simp [readLoop] at h
  | cons l ls ih =>
      by_cases hl : l = ""
      · exact ih (by simpa [readLoop, hl] using h)
      · rcases (by simpa [readLoop, hl] using h) with h' | h'
        · exact ⟨l, h'⟩
        · exact ih h'

/-- The stdout read loop never invokes the completion callback. -/
theorem finishedCodes_readLoop (ls : List String) :
    finishedCodes (readLoop ls) = [] := by
  induction ls with
  | nil => simp [readLoop, finishedCodes]
  | cons l ls ih =>
      by_cases hl : l = ""
      · simpa [readLoop, hl] using ih
      · simpa [readLoop, hl, finishedCodes] using ih

/-- The stderr flush never invokes the completion callback. -/
theorem finishedCodes_stderrEvents (s : String) :
    finishedCodes (stderrEvents s) = [] := by
  by_cases hs : s = "" <;> simp [stderrEvents, hs, finishedCodes]

/-- Every event produced by the stderr flush is an output event. -/
theorem stderrEvents_mem {e : Event} {s : String}
    (h : e ∈ stderrEvents s) : ∃ t, e = Event.output t := by
  by_cases hs : s = ""
  · simp [stderrEvents, hs] at h
  · exact ⟨"ERROR: " ++ s ++ "\n", by simpa [stderrEvents, hs] using h⟩

/-- When every string the loop reads is non-empty (as is the case for
complete lines, which always contain at least their terminator), the
loop emits exactly those strings in order. -/
theorem readLoop_eq_map {ls : List String} (h : "" ∉ ls) :
    readLoop ls = ls.map Event.output := by
  induction ls with
  | nil => simp [readLoop]
  | cons l ls ih =>
      have hl : l ≠ "" := fun hc => h (by simp [hc])
      have hls : "" ∉ ls := fun hc => h (List.mem_cons_of_mem _ hc)
      simp [readLoop, hl, ih hls]

/-- The full emission sequence of `run` decomposes as a block of
output-callback invocations followed by one final completion-callback
invocation, on both the normal and the exceptional path. -/
theorem run_decomp (cmd_pre command : String) (child : ChildBehavior) :
    ∃ pref code, run cmd_pre command child = pref ++ [Event.finished code]
      ∧ ∀ e ∈ pref, ∃ s, e = Event.output s := by
  by_cases hs : child.spawnFails
  · refine ⟨[Event.output ("Exception: " ++ child.spawnMsg ++ "\n")], -1,
      by simp [run, hs], ?_⟩
    intro e he
    exact ⟨_, by simpa using he⟩
  · refine ⟨readLoop child.stdoutReads ++ stderrEvents child.stderrRest
        ++ [Event.output (completedLine child.returnCode)], child.returnCode,
      by simp [run, hs], ?_⟩
    intro e he
    rcases List.mem_append.1 he with h1 | h2
    · rcases List.mem_append.1 h1 with ha | hb
      · exact readLoop_mem ha
      · exact stderrEvents_mem hb
    · exact ⟨_, by simpa using h2⟩

/-- A block of output events contributes no completion codes. -/
theorem finishedCodes_of_outputs {pref : List Event}
    (h : ∀ e ∈ pref, ∃ s, e = Event.output s) : finishedCodes pref = [] := by
  induction pref with
  | nil => simp [finishedCodes]
  | cons e es ih =>
      obtain ⟨s, rfl⟩ := h e (List.mem_cons_self e es)
      simpa [finishedCodes] using ih fun x hx => h x (List.mem_cons_of_mem _ hx)

/-- Claim C1: for every non-empty command specification, `run` invokes
the completion callback exactly once on every execution path, whether
the process spawns and exits (with any code) or fails to spawn. -/
theorem run_completion_exactly_once (cmd_pre command : String)
    (child : ChildBehavior) (h : strip command ≠ "") :
    (finishedCodes (run cmd_pre command child)).length = 1 := by
  obtain ⟨pref, code, heq, hall⟩ := run_decomp cmd_pre command child
  rw [heq, finishedCodes_append, finishedCodes_of_outputs hall]
  simp [finishedCodes]

/-- Witness for C1 at a concrete non-empty command and child behaviour. -/
theorem run_completion_exactly_once_witness :
    (finishedCodes (run "./" "echo hi" ⟨false, "", ["hi\n"], "", 0⟩)).length = 1 :=
  run_completion_exactly_once "./" "echo hi" ⟨false, "", ["hi\n"], "", 0⟩ (by decide)

/-- Claim C2: for every run, the completion callback is the last callback
invoked: the emission sequence is a block of output-callback invocations
followed by exactly the final completion-callback invocation, so every
output event happens strictly before completion and none after it. -/
theorem run_completion_is_last (cmd_pre command : String)
    (child : ChildBehavior) :
    ∃ pref code, run cmd_pre command child = pref ++ [Event.finished code]
      ∧ ∀ e ∈ pref, ∃ s, e = Event.output s :=
  run_decomp cmd_pre command child

/-- Claim C3: when the process spawns, the complete stdout lines (all
non-empty) are delivered to the output callback first and in produced
order, and the completion callback is invoked with exactly the exit code
the child returned (in particular 0, or 7, when it exits with those). -/
theorem run_stdout_order_and_exit_code (cmd_pre command : String)
    (child : ChildBehavior) (hs : child.spawnFails = false)
    (hne : "" ∉ child.stdoutReads) :
    (outputLines (run cmd_pre command child)).take child.stdoutReads.length
        = child.stdoutReads
    ∧ finishedCodes (run cmd_pre command child) = [child.returnCode] := by
  have h1 : run cmd_pre command child
      = readLoop child.stdoutReads ++ (stderrEvents child.stderrRest
        ++ [Event.output (completedLine child.returnCode),
            Event.finished child.returnCode]) := by
    simp [run, hs]
  constructor
  · rw [h1, outputLines_append, readLoop_eq_map hne]
    have h2 : outputLines (List.map Event.output child.stdoutReads)
        = child.stdoutReads := by
      induction child.stdoutReads with
      | nil => simp [outputLines]
      | cons a as ih => simpa [outputLines] using ih
    rw [h2]
    exact List.take_left _ _
  · rw [h1, finishedCodes_append, finishedCodes_append, finishedCodes_readLoop,
      finishedCodes_stderrEvents]
    simp [finishedCodes]

/-- Witness for C3: two stdout lines and exit code 7. -/
theorem run_stdout_order_and_exit_code_witness :
    (outputLines (run "./" "sh t.sh" ⟨false, "", ["l1\n", "l2\n"], "", 7⟩)).take
        (List.length (["l1\n", "l2\n"] : List String)) = ["l1\n", "l2\n"]
    ∧ finishedCodes (run "./" "sh t.sh" ⟨false, "", ["l1\n", "l2\n"], "", 7⟩) = [7] :=
  run_stdout_order_and_exit_code "./" "sh t.sh" ⟨false, "", ["l1\n", "l2\n"], "", 7⟩
    rfl (by decide)

/-- Counterexample to claim C4: with buffered stderr text consisting of
the two lines `e1` and `e2`, no output event carrying the first stderr
line with its own `ERROR: ` prefix is ever emitted — stderr is not
delivered line by line. -/
theorem stderr_not_delivered_per_line :
    Event.output "ERROR: e1\n" ∉ run "./" "sh x" ⟨false, "", [], "e1\ne2\n", 0⟩ := by
  decide

/-- Claim C4 as amended: the buffered stderr is read in full only after
the stdout loop has finished (modelling: after the process has exited)
and, when non-empty, is emitted as one single output event, the whole
blob prefixed once with `ERROR: ` and suffixed with a newline, placed
after all stdout lines and before the completion report. -/
theorem stderr_flushed_as_single_block (cmd_pre command : String)
    (child : ChildBehavior) (hs : child.spawnFails = false)
    (hne : child.stderrRest ≠ "") :
    run cmd_pre command child =
      readLoop child.stdoutReads
        ++ [Event.output ("ERROR: " ++ child.stderrRest ++ "\n"),
            Event.output (completedLine child.returnCode),
            Event.finished child.returnCode] := by
  simp [run, hs, stderrEvents, hne]

/-- Witness for the amended C4 at a concrete child behaviour. -/
theorem stderr_flushed_as_single_block_witness :
    run "./" "sh x2" ⟨false, "", ["o\n"], "e1\ne2\n", 3⟩ =
      readLoop ["o\n"]
        ++ [Event.output ("ERROR: " ++ "e1\ne2\n" ++ "\n"),
            Event.output (completedLine 3), Event.finished 3] :=
  stderr_flushed_as_single_block "./" "sh x2" ⟨false, "", ["o\n"], "e1\ne2\n", 3⟩
    rfl (by decide)

/-- Claim C5: a command string that is blank after stripping whitespace
is rejected fast by `submit_command`: no `CommandThread` is created and
no OS process is spawned. -/
theorem submit_blank_command_rejected (input : String) (h : strip input = "") :
    submit_command input = none := by
  simp [submit_command, h]

/-- Witness for C5 on a whitespace-only input. -/
theorem submit_blank_command_rejected_witness : submit_command "   " = none :=
  submit_blank_command_rejected "   " (by decide)

/-- Claim C6: when process creation fails, `run` emits one descriptive
output line (the exception text) and then invokes the completion
callback with the sentinel code `-1`; the function is total, so no
exception reaches the caller. -/
theorem spawn_failure_sentinel (cmd_pre command : String)
    (child : ChildBehavior) (h : child.spawnFails = true) :
    run cmd_pre command child =
      [Event.output ("Exception: " ++ child.spawnMsg ++ "\n"),
       Event.finished (-1)] := by
  simp [run, h]

/-- Witness for C6 on a concrete spawn failure. -/
theorem spawn_failure_sentinel_witness :
    run "./" "nosuchbinary" ⟨true, "No such file or directory", [], "", 0⟩ =
      [Event.output ("Exception: " ++ "No such file or directory" ++ "\n"),
       Event.finished (-1)] :=
  spawn_failure_sentinel "./" "nosuchbinary"
    ⟨true, "No such file or directory", [], "", 0⟩ rfl

/-- Claim C7: a command beginning with `adb` or `scrcpy` is resolved by
prepending the platform executable prefix and, when the `scrcpy`
subdirectory exists, additionally prepending `cd scrcpy && `; every
other command is passed to the shell verbatim. -/
theorem tool_command_resolution (cmd_pre command : String) :
    (matchesTool command = true →
        resolvedCommand cmd_pre command true
            = "cd scrcpy && " ++ (cmd_pre ++ command)
        ∧ resolvedCommand cmd_pre command false = cmd_pre ++ command)
    ∧ (matchesTool command = false →
        ∀ d, resolvedCommand cmd_pre command d = command) := by
  constructor
  · intro h
    constructor <;> simp [resolvedCommand, h]
  · intro h d
    simp [resolvedCommand, h]

/-- Witness for C7: a `scrcpy` command with the subdirectory present, an
`adb` command without it, and an unrecognized command passed verbatim. -/
theorem tool_command_resolution_witness :
    resolvedCommand ".\\" "scrcpy --fullscreen" true
        = "cd scrcpy && " ++ (".\\" ++ "scrcpy --fullscreen")
    ∧ resolvedCommand "./" "adb devices" false = "./" ++ "adb devices"
    ∧ resolvedCommand "./" "echo hi" true = "echo hi" :=
  ⟨((tool_command_resolution ".\\" "scrcpy --fullscreen").1 (by decide)).1,
   ((tool_command_resolution "./" "adb devices").1 (by decide)).2,
   (tool_command_resolution "./" "echo hi").2 (by decide) true⟩

/-- Claim C8: with a live owned process, termination uses the platform
policy — a `taskkill /F /T` of the whole process tree on Windows, a
graceful `terminate()` plus a wait of at most 5 seconds elsewhere — and
never raises to the caller, whether or not the OS call fails. -/
theorem terminate_platform_policy (s : SupState) (pid : Nat) (f : Bool)
    (h : s.process = some pid) :
    terminateStep true f s = (s, some (TermAction.killTree pid), [], false)
    ∧ terminateStep false f s = (s, some (TermAction.termThenWait pid 5), [], false) := by
  rcases s with ⟨p⟩
  cases p with
  | none => simp at h
  | some q =>
      obtain rfl : q = pid := by simpa using h
      constructor <;> simp [terminateStep]

/-- Witness for C8 with process id 42 and a failing OS call. -/
theorem terminate_platform_policy_witness :
    terminateStep true true ⟨some 42⟩
        = (⟨some 42⟩, some (TermAction.killTree 42), [], false)
    ∧ terminateStep false true ⟨some 42⟩
        = (⟨some 42⟩, some (TermAction.termThenWait 42 5), [], false) :=
  terminate_platform_policy ⟨some 42⟩ 42 true rfl

/-- Claim C9: `terminate_process` is idempotent and inert towards the
caller: any call leaves the supervisor state unchanged, emits no output
or completion callback, raises nothing, and a repeated call — in any
platform/failure configuration, including after natural completion —
behaves exactly like a call on the original state. -/
theorem terminate_idempotent (w f w2 f2 : Bool) (s : SupState) :
    (terminateStep w f s).1 = s
    ∧ (terminateStep w f s).2.2.1 = []
    ∧ (terminateStep w f s).2.2.2 = false
    ∧ terminateStep w2 f2 (terminateStep w f s).1 = terminateStep w2 f2 s := by
  rcases s with ⟨p⟩
  cases p <;> simp [terminateStep]

/-- Claim C10: on a successful spawn the supervisor itself emits one
synthetic output line reporting the return code, after all stdout lines
and any buffered stderr and immediately before the completion callback;
everything before the report line is plain output. -/
theorem completion_report_line (cmd_pre command : String)
    (child : ChildBehavior) (h : child.spawnFails = false) :
    run cmd_pre command child =
      (readLoop child.stdoutReads ++ stderrEvents child.stderrRest)
        ++ [Event.output (completedLine child.returnCode),
            Event.finished child.returnCode]
    ∧ ∀ e ∈ readLoop child.stdoutReads ++ stderrEvents child.stderrRest,
        ∃ s, e = Event.output s := by
  refine ⟨by simp [run, h], ?_⟩
  intro e he
  rcases List.mem_append.1 he with h1 | h2
  · exact readLoop_mem h1
  · exact stderrEvents_mem h2

/-- Witness for C10 at a concrete child behaviour with stdout and stderr. -/
theorem completion_report_line_witness :
    run "./" "adb devices" ⟨false, "", ["w\n"], "x\n", 0⟩ =
      (readLoop ["w\n"] ++ stderrEvents "x\n")
        ++ [Event.output (completedLine 0), Event.finished 0]
    ∧ ∀ e ∈ readLoop ["w\n"] ++ stderrEvents "x\n", ∃ s, e = Event.output s :=
  completion_report_line "./" "adb devices" ⟨false, "", ["w\n"], "x\n", 0⟩ rfl

end Scrcpy
